import Mathlib

/-!
Verification of the gargantua-sink capture-and-persist engine.

This file gives a shallow embedding of the core of the repository
(internal/storage/storage.go and internal/smtp/server.go) and proves, or
refutes, the specification's claims about it.  Effects of the Go code on its
environment are made explicit: the clock (time.Now) and the random source
(rand.Read) become oracle inputs, the filesystem operations become the data
they would write, and the per-domain map becomes an association list.
-/

namespace GargantuaSink

/-! Embedding of internal/storage/storage.go. -/

/-- Go constant Incoming (iota = 0); the Go type Direction is an int, so it is
embedded as Int and out-of-range values remain representable. -/
def Incoming : Int := 0

/-- Go constant Outgoing (iota = 1). -/
def Outgoing : Int := 1

/-- Embeds the method Direction.String: a switch returning "IN" for Incoming,
"OUT" for Outgoing and "UNKNOWN" in the default branch. -/
def directionString (d : Int) : String :=
  if d = Incoming then "IN" else if d = Outgoing then "OUT" else "UNKNOWN"

/-- Membership in the character class of the regexp [^a-zA-Z0-9-.] read
positively: the runes the regexp does NOT match, hence the runes kept by the
sanitizer. -/
def isSafeFilenameChar (c : Char) : Bool :=
  (('a' ≤ c) && (c ≤ 'z')) || (('A' ≤ c) && (c ≤ 'Z')) ||
    (('0' ≤ c) && (c ≤ '9')) || (c = '-') || (c = '.')

/-- Embeds safeFilename.ReplaceAllString(subject, "_"): each rune outside the
class [a-zA-Z0-9-.] is replaced by one underscore. -/
def replaceUnsafeChars (s : String) : String :=
  String.mk (s.data.map (fun c => if isSafeFilenameChar c then c else '_'))

/-- Lower-case hex digit for a nibble, as produced by hex.EncodeToString. -/
def hexDigitChar (n : Nat) : Char :=
  if n < 10 then Char.ofNat (48 + n) else Char.ofNat (87 + n)

/-- Hex encoding of one byte: high nibble then low nibble. -/
def hexEncodeByte (b : Nat) : List Char :=
  [hexDigitChar (b / 16), hexDigitChar (b % 16)]

/-- Embeds generateUniqueID: hex.EncodeToString over the bytes that rand.Read
produced.  The four random bytes are the oracle input randomBytes. -/
def generateUniqueID (randomBytes : List Nat) : String :=
  String.mk (randomBytes.map hexEncodeByte).flatten

/-- The wall-clock fields that the Go layout string "20060102150405" renders,
as read from time.Now(). -/
structure GoTime where
  year : Nat
  month : Nat
  day : Nat
  hour : Nat
  minute : Nat
  second : Nat
deriving DecidableEq, Repr

/-- Ranges within which the Go layout renders each field at its fixed width;
every value of time.Now() satisfies them. -/
def GoTime.InRange (t : GoTime) : Prop :=
  t.year < 10000 ∧ t.month < 100 ∧ t.day < 100 ∧ t.hour < 100 ∧
    t.minute < 100 ∧ t.second < 100

instance (t : GoTime) : Decidable t.InRange := by
  unfold GoTime.InRange; infer_instance

/-- Decimal digit character of n mod 10. -/
def decimalDigit (n : Nat) : Char := Char.ofNat (48 + n % 10)

/-- Zero-padded two-digit decimal rendering, as the Go verbs "01".."05"
produce for in-range field values. -/
def pad2 (n : Nat) : String :=
  String.mk [decimalDigit (n / 10), decimalDigit n]

/-- Zero-padded four-digit decimal rendering, as the Go verb "2006" produces
for in-range years. -/
def pad4 (n : Nat) : String :=
  String.mk [decimalDigit (n / 1000), decimalDigit (n / 100),
    decimalDigit (n / 10), decimalDigit n]

/-- Embeds time.Now().Format("20060102150405"): year, month, day, hour,
minute, second, zero-padded and concatenated. -/
def formatTimestamp (t : GoTime) : String :=
  pad4 t.year ++ pad2 t.month ++ pad2 t.day ++ pad2 t.hour ++
    pad2 t.minute ++ pad2 t.second

/-- The filename StoreEmail builds:
fmt.Sprintf of timestamp, uniqueID, direction and sanitized subject. -/
def storeEmailFilename (direction : Int) (subject : String) (now : GoTime)
    (randomBytes : List Nat) : String :=
  formatTimestamp now ++ "-" ++ generateUniqueID randomBytes ++ "-" ++
    directionString direction ++ "-" ++ replaceUnsafeChars subject ++ ".eml"

/-- The filesystem effect of one StoreEmail call: the directory it ensures
with os.MkdirAll (as its path segments, in filepath.Join order) and the file
os.WriteFile creates inside it. -/
structure StoredFile where
  dirSegments : List String
  filename : String
  content : List Nat
deriving DecidableEq, Repr

/-- Embeds EmailStorage.StoreEmail under its mutex: sanitize the subject,
render the timestamp, draw the unique id, join rootPath/domain/user as the
directory, and write the content under the built filename.  The clock and the
random source are the oracle inputs now and randomBytes. -/
def storeEmail (rootPath : String) (direction : Int)
    (domain user subject : String) (content : List Nat) (now : GoTime)
    (randomBytes : List Nat) : StoredFile :=
  { dirSegments := [rootPath, domain, user]
  , filename := storeEmailFilename direction subject now randomBytes
  , content := content }

/-! Embedding of internal/smtp/server.go. -/

/-- Splits a character list at the first occurrence of the at sign, as the
index loop of parseEmailAddress does; none when no at sign occurs. -/
def splitAtFirstAtSign : List Char → Option (List Char × List Char)
  | [] => none
  | c :: cs =>
    if c = '@' then some ([], cs)
    else
      match splitAtFirstAtSign cs with
      | some (pre, post) => some (c :: pre, post)
      | none => none

/-- Embeds parseEmailAddress: at the first at sign the tail is the domain and
the head is the user; with no at sign the domain is "unknown" and the user is
the whole input. -/
def parseEmailAddress (email : String) : String × String :=
  match splitAtFirstAtSign email.data with
  | some (pre, post) => (String.mk post, String.mk pre)
  | none => ("unknown", email)

/-- One call to EmailStorage.StoreEmail as issued by the session, with the
identity of the store instance it is made on. -/
structure StoreCall where
  storeId : Nat
  direction : Int
  domain : String
  user : String
  subject : String
  content : List Nat
deriving DecidableEq, Repr

/-- The store call Session.Data issues for one recipient: Incoming direction,
the recipient's parsed domain and user, subject "from-" plus the sender. -/
def recipientStoreCall (storeId : Nat) (fromAddr : String) (content : List Nat)
    (recipient : String) : StoreCall :=
  let du := parseEmailAddress recipient
  { storeId := storeId, direction := Incoming, domain := du.1, user := du.2
  , subject := "from-" ++ fromAddr, content := content }

/-- The recipient loop of Session.Data: each iteration unconditionally issues
the next store call; a failing call (per the failure oracle fails) is only
appended to the log.  Returns the calls issued and the calls logged as
failed. -/
def fanOutLoop (storeId : Nat) (fromAddr : String) (content : List Nat)
    (fails : StoreCall → Bool) : List String → List StoreCall × List StoreCall
  | [] => ([], [])
  | r :: rs =>
    let call := recipientStoreCall storeId fromAddr content r
    let rest := fanOutLoop storeId fromAddr content fails rs
    (call :: rest.1, (if fails call then [call] else []) ++ rest.2)

/-- What one run of Session.Data does after the content has been read: the
store calls it issued, the failures it logged, and the error value it returns
to the protocol engine. -/
structure DataOutcome where
  calls : List StoreCall
  logged : List StoreCall
  returnErr : Option String
deriving DecidableEq, Repr

/-- Embeds Session.Data after a successful read of the message body.  The
session's domains map is carried exactly as the Session struct carries it.
The sender's OUT-direction call is issued first (its subject built from
s.recipients[0]), then the recipient loop runs; every store error is only
logged and the hook returns nil.  The result is none exactly when the
recipient list is empty, where the Go code panics on the s.recipients[0]
index. -/
def sessionDataRun (domains : List (String × Nat)) (storeId : Nat)
    (fromAddr : String) (recipients : List String) (content : List Nat)
    (fails : StoreCall → Bool) : Option DataOutcome :=
  match recipients with
  | [] => none
  | r0 :: _ =>
    let du := parseEmailAddress fromAddr
    let outCall : StoreCall :=
      { storeId := storeId, direction := Outgoing, domain := du.1
      , user := du.2, subject := "to-" ++ r0, content := content }
    let rest := fanOutLoop storeId fromAddr content fails recipients
    some { calls := outCall :: rest.1
         , logged := (if fails outCall then [outCall] else []) ++ rest.2
         , returnErr := none }

/-- Follows the spec's words, for comparison with the code: ResolveStore
returns the domain's dedicated store if registered, else the server-wide
default store.  No such resolution exists in Session.Data. -/
def specResolveStore (domains : List (String × Nat)) (defaultStore : Nat)
    (domain : String) : Nat :=
  match domains.lookup domain with
  | some s => s
  | none => defaultStore

/-- The per-domain configuration Server.AddDomain builds: the domain name,
the loaded certificate chain of its tls.Config (empty when no certificate
material was supplied), and the storage root.  Certificates are identified by
opaque numeric handles. -/
structure DomainConfig where
  domain : String
  tlsCertificates : List Nat
  hasTLS : Bool
  storageDir : String
deriving DecidableEq, Repr

/-- Embeds Server.AddDomain: reject an empty domain name, reject certificate
material supplied one-sided, then create the domain storage (outcome of
os.MkdirAll given by the oracle storageOk) and, when both files are supplied,
load the key pair (outcome given by the oracle certLoad: some handle on
success, none on failure). -/
def addDomain (domain certFile keyFile storageDir : String)
    (storageOk : Bool) (certLoad : Option Nat) : Except String DomainConfig :=
  if domain = "" then
    Except.error "domain name cannot be empty"
  else if (certFile ≠ "" ∧ keyFile = "") ∨ (certFile = "" ∧ keyFile ≠ "") then
    Except.error "both certificate and key files must be provided for TLS"
  else if storageOk = false then
    Except.error ("creating storage for domain " ++ domain)
  else if certFile ≠ "" ∧ keyFile ≠ "" then
    match certLoad with
    | none => Except.error ("loading TLS certificate for domain " ++ domain)
    | some cert =>
      Except.ok { domain := domain, tlsCertificates := [cert], hasTLS := true
                , storageDir := storageDir }
  else
    Except.ok { domain := domain, tlsCertificates := [], hasTLS := false
              , storageDir := storageDir }

/-- The part of a tls.Config that the certificate-selection callback
returns: the certificate chain and the server name. -/
structure TLSConfigModel where
  certificates : List Nat
  serverName : String
deriving DecidableEq, Repr

/-- The map Server.Start collects before installing the callback: the
tls.Config of every registered domain that has one (AddDomain stores the
loaded certificate and the domain as ServerName). -/
def collectTLSConfigs (domains : List (String × DomainConfig)) :
    List (String × TLSConfigModel) :=
  (domains.filter (fun p => p.2.hasTLS)).map
    (fun p => (p.1, { certificates := p.2.tlsCertificates
                    , serverName := p.2.domain }))

/-- Embeds the GetConfigForClient closure of Server.Start: the config mapped
to the requested server name when one exists, otherwise a fresh tls.Config
whose Certificates field is the empty slice.  The callback never returns an
error. -/
def getConfigForClient (tlsConfigs : List (String × TLSConfigModel))
    (helloServerName : String) : TLSConfigModel :=
  match tlsConfigs.lookup helloServerName with
  | some config => config
  | none => { certificates := [], serverName := "" }

/-! Shared helper lemmas. -/

/-- Appending strings appends their character lists. -/
theorem string_data_append (a b : String) : (a ++ b).data = a.data ++ b.data := by
  cases a; cases b; rfl

/-- The character list of the one-character string used as separator. -/
theorem dash_data : ("-" : String).data = ['-'] := rfl

/-- Every decimal digit character is a digit. -/
theorem decimalDigit_isDigit (n : Nat) : (decimalDigit n).isDigit = true := by
  have hall : ∀ k, k < 10 → (Char.ofNat (48 + k)).isDigit = true := by decide
  exact hall (n % 10) (Nat.mod_lt _ (by omega))

/-- The rendered timestamp always has fourteen characters. -/
theorem formatTimestamp_data_length (t : GoTime) :
    (formatTimestamp t).data.length = 14 := by
  simp [formatTimestamp, string_data_append, pad4, pad2]

/-- Every character of the rendered timestamp is a decimal digit. -/
theorem formatTimestamp_digits (t : GoTime) :
    ∀ c ∈ (formatTimestamp t).data, c.isDigit = true := by
  intro c hc
  have hdata : (formatTimestamp t).data =
      [decimalDigit (t.year / 1000), decimalDigit (t.year / 100),
        decimalDigit (t.year / 10), decimalDigit t.year,
        decimalDigit (t.month / 10), decimalDigit t.month,
        decimalDigit (t.day / 10), decimalDigit t.day,
        decimalDigit (t.hour / 10), decimalDigit t.hour,
        decimalDigit (t.minute / 10), decimalDigit t.minute,
        decimalDigit (t.second / 10), decimalDigit t.second] := by
    simp [formatTimestamp, string_data_append, pad4, pad2]
  rw [hdata] at hc
  simp only [List.mem_cons, List.not_mem_nil, or_false] at hc
  rcases hc with h | h | h | h | h | h | h | h | h | h | h | h | h | h <;>
    subst h <;> exact decimalDigit_isDigit _

/-- The unique id encodes each random byte as two characters. -/
theorem generateUniqueID_data_length (r : List Nat) :
    (generateUniqueID r).data.length = 2 * r.length := by
  induction r with
  | nil => rfl
  | cons b bs ih =>
    simp only [generateUniqueID, List.map_cons, List.flatten_cons,
      List.length_append] at ih ⊢
    simp only [hexEncodeByte, List.length_cons, List.length_nil]
    omega

/-- Every character the hex encoder emits for a byte is a lower-case hex
digit. -/
theorem hexEncodeByte_chars (b : Nat) (hb : b < 256) :
    ∀ c ∈ hexEncodeByte b, c.isDigit = true ∨ ('a' ≤ c ∧ c ≤ 'f') := by
  have hall : ∀ k, k < 16 →
      (hexDigitChar k).isDigit = true ∨ ('a' ≤ hexDigitChar k ∧ hexDigitChar k ≤ 'f') := by
    decide
  intro c hc
  simp only [hexEncodeByte, List.mem_cons, List.not_mem_nil, or_false] at hc
  rcases hc with h | h <;> subst h
  · exact hall (b / 16) (by omega)
  · exact hall (b % 16) (by omega)

/-- Every character of the unique id is a lower-case hex digit. -/
theorem generateUniqueID_chars (r : List Nat) (hr : ∀ b ∈ r, b < 256) :
    ∀ c ∈ (generateUniqueID r).data,
      c.isDigit = true ∨ ('a' ≤ c ∧ c ≤ 'f') := by
  intro c hc
  simp only [generateUniqueID, List.mem_flatten, List.mem_map] at hc
  obtain ⟨l, ⟨b, hb, hl⟩, hcl⟩ := hc
  subst hl
  exact hexEncodeByte_chars b (hr b hb) c hcl

/-- Lists with no at sign make the splitter return none. -/
theorem splitAtFirstAtSign_of_not_mem :
    ∀ l : List Char, '@' ∉ l → splitAtFirstAtSign l = none := by
  intro l
  induction l with
  | nil => intro _; rfl
  | cons c cs ih =>
    intro h
    have hc : c ≠ '@' := fun he => h (he ▸ List.mem_cons_self c cs)
    have hcs : '@' ∉ cs := fun hm => h (List.mem_cons_of_mem c hm)
    simp only [splitAtFirstAtSign, if_neg hc, ih hcs]

/-- The splitter cuts exactly at the first at sign. -/
theorem splitAtFirstAtSign_append :
    ∀ u v : List Char, '@' ∉ u →
      splitAtFirstAtSign (u ++ '@' :: v) = some (u, v) := by
  intro u v
  induction u with
  | nil => intro _; simp [splitAtFirstAtSign]
  | cons c cs ih =>
    intro h
    have hc : c ≠ '@' := fun he => h (he ▸ List.mem_cons_self c cs)
    have hcs : '@' ∉ cs := fun hm => h (List.mem_cons_of_mem c hm)
    simp only [List.cons_append, splitAtFirstAtSign, if_neg hc, List.append_eq,
      ih hcs]

/-! Claim theorems. -/

/-- C10: Direction-to-string conversion is total: String returns "IN" on
Incoming, "OUT" on Outgoing, and "UNKNOWN" on every other value of the Go int
type, so rendering a direction never fails on an out-of-range value. -/
theorem c10_direction_string_total :
    directionString Incoming = "IN" ∧ directionString Outgoing = "OUT" ∧
      ∀ d : Int, d ≠ Incoming → d ≠ Outgoing → directionString d = "UNKNOWN" := by
  refine ⟨rfl, rfl, fun d h1 h2 => ?_⟩
  unfold directionString
  rw [if_neg h1, if_neg h2]

/-- Witness for C10 at the in-range values and the out-of-range values 5 and
minus one. -/
theorem c10_witness :
    directionString 0 = "IN" ∧ directionString 1 = "OUT" ∧
      directionString 5 = "UNKNOWN" ∧ directionString (-1) = "UNKNOWN" :=
  ⟨c10_direction_string_total.1, c10_direction_string_total.2.1,
    c10_direction_string_total.2.2 5 (by decide) (by decide),
    c10_direction_string_total.2.2 (-1) (by decide) (by decide)⟩

/-- C8: the address parser splits at the first at sign: with an at sign, the
user is the text before the first at sign and the domain everything after it;
with none, the domain is "unknown" and the user the whole input, with no
further validation. -/
theorem c8_parse_splits_at_first_at_sign :
    (∀ email : String, '@' ∉ email.data →
      parseEmailAddress email = ("unknown", email)) ∧
    (∀ u v : String, '@' ∉ u.data →
      parseEmailAddress (u ++ "@" ++ v) = (v, u)) := by
  constructor
  · intro email h
    unfold parseEmailAddress
    rw [splitAtFirstAtSign_of_not_mem _ h]
  · intro u v h
    unfold parseEmailAddress
    have hd : (u ++ "@" ++ v).data = u.data ++ '@' :: v.data := by
      simp [string_data_append]
    rw [hd, splitAtFirstAtSign_append _ _ h]

/-- Witness for C8 on the spec's two examples. -/
theorem c8_witness :
    parseEmailAddress "john@example.com" = ("example.com", "john") ∧
    parseEmailAddress "no-at-sign" = ("unknown", "no-at-sign") :=
  ⟨c8_parse_splits_at_first_at_sign.2 "john" "example.com" (by decide),
    c8_parse_splits_at_first_at_sign.1 "no-at-sign" (by decide)⟩

/-- C1, evaluated at a failing input: StoreEmail joins only root, domain and
user into the directory it creates and writes into — the direction appears in
the filename, not as a path segment, so the file does not land inside
root/domain/user/IN as the claim (and the repository's own TestStoreEmail)
requires. -/
theorem c1_store_email_directory_lacks_direction_segment :
    (storeEmail "root" Incoming "example.com" "john" "test-subject" [116]
        ⟨2023, 6, 15, 12, 34, 56⟩ [1, 2, 3, 4]).dirSegments =
      ["root", "example.com", "john"] ∧
    (storeEmail "root" Incoming "example.com" "john" "test-subject" [116]
        ⟨2023, 6, 15, 12, 34, 56⟩ [1, 2, 3, 4]).dirSegments.contains "IN" =
      false ∧
    (storeEmail "root" Incoming "example.com" "john" "test-subject" [116]
        ⟨2023, 6, 15, 12, 34, 56⟩ [1, 2, 3, 4]).filename =
      "20230615123456-01020304-IN-test-subject.eml" :=
  ⟨rfl, by decide, rfl⟩

/-- Every call the recipient loop issues is made on the store the loop was
given. -/
theorem fanOutLoop_storeId (storeId : Nat) (fromAddr : String)
    (content : List Nat) (fails : StoreCall → Bool) :
    ∀ rs : List String, ∀ c ∈ (fanOutLoop storeId fromAddr content fails rs).1,
      c.storeId = storeId := by
  intro rs
  induction rs with
  | nil => intro c hc; simp [fanOutLoop] at hc
  | cons r rs ih =>
    intro c hc
    simp only [fanOutLoop, List.mem_cons] at hc
    rcases hc with h | h
    · subst h; rfl
    · exact ih c h

/-- The recipient loop issues exactly one call per recipient. -/
theorem fanOutLoop_length (storeId : Nat) (fromAddr : String)
    (content : List Nat) (fails : StoreCall → Bool) :
    ∀ rs : List String,
      (fanOutLoop storeId fromAddr content fails rs).1.length = rs.length := by
  intro rs
  induction rs with
  | nil => rfl
  | cons r rs ih => simp only [fanOutLoop, List.length_cons, ih]

/-- The calls the recipient loop issues do not depend on which of them
fail. -/
theorem fanOutLoop_calls_independent (storeId : Nat) (fromAddr : String)
    (content : List Nat) (fails otherFails : StoreCall → Bool) :
    ∀ rs : List String,
      (fanOutLoop storeId fromAddr content fails rs).1 =
        (fanOutLoop storeId fromAddr content otherFails rs).1 := by
  intro rs
  induction rs with
  | nil => rfl
  | cons r rs ih => simp only [fanOutLoop, ih]

/-- The loop's failure log is exactly the failing calls among the calls it
issued. -/
theorem fanOutLoop_logged (storeId : Nat) (fromAddr : String)
    (content : List Nat) (fails : StoreCall → Bool) :
    ∀ rs : List String,
      (fanOutLoop storeId fromAddr content fails rs).2 =
        (fanOutLoop storeId fromAddr content fails rs).1.filter fails := by
  intro rs
  induction rs with
  | nil => rfl
  | cons r rs ih =>
    simp only [fanOutLoop, List.filter_cons, ih]
    by_cases h : fails (recipientStoreCall storeId fromAddr content r) <;>
      simp [h]

/-- C2, counterexample: with domain x.com registered to its dedicated store 1
and default store 0, the delivery for recipient b at x.com is made on store 0
— not on store 1, which the spec's ResolveStore rule resolves for x.com.  The
claim that each participant's store call uses the registry-resolved store is
therefore false on the code. -/
theorem c2_counterexample_registered_domain_ignored :
    ((sessionDataRun [("x.com", 1)] 0 "a@y.com" ["b@x.com"] [104]
        (fun _ => false)).map
      (fun out => out.calls.map (fun c => (c.storeId, c.domain)))) =
      some [(0, "y.com"), (0, "x.com")] ∧
    specResolveStore [("x.com", 1)] 0 "x.com" = 1 :=
  ⟨rfl, rfl⟩

/-- C2, amended: every store call Session.Data issues — the sender's and
every recipient's — is made on the session's single store (the server-wide
default store the backend installed), never on a registered domain's
dedicated store. -/
theorem c2_amended_all_calls_use_session_store :
    ∀ (domains : List (String × Nat)) (storeId : Nat) (fromAddr : String)
      (recipients : List String) (content : List Nat)
      (fails : StoreCall → Bool) (out : DataOutcome),
      sessionDataRun domains storeId fromAddr recipients content fails =
        some out →
      ∀ c ∈ out.calls, c.storeId = storeId := by
  intro domains storeId fromAddr recipients content fails out hrun c hc
  cases recipients with
  | nil => simp [sessionDataRun] at hrun
  | cons r0 rs =>
    simp only [sessionDataRun, Option.some.injEq] at hrun
    subst hrun
    simp only [List.mem_cons] at hc
    rcases hc with h | h
    · subst h; rfl
    · exact fanOutLoop_storeId storeId fromAddr content fails (r0 :: rs) c h

/-- Witness for the amended C2: the recipient call of a concrete delivery
carries the session store 0. -/
theorem c2_amended_witness :
    StoreCall.storeId
        { storeId := 0, direction := Incoming, domain := "x.com", user := "b"
        , subject := "from-a@y.com", content := [104] } = 0 :=
  c2_amended_all_calls_use_session_store [("x.com", 1)] 0 "a@y.com"
    ["b@x.com"] [104] (fun _ => false) _ rfl _ (by decide)

/-- C3: a storage failure aborts nothing: the calls Session.Data issues are
the same under any failure pattern, each failing call is only logged, and the
hook returns nil to the protocol engine regardless. -/
theorem c3_storage_failure_does_not_abort :
    ∀ (domains : List (String × Nat)) (storeId : Nat) (fromAddr : String)
      (recipients : List String) (content : List Nat)
      (fails otherFails : StoreCall → Bool),
      ((sessionDataRun domains storeId fromAddr recipients content fails).map
          DataOutcome.calls =
        (sessionDataRun domains storeId fromAddr recipients content
            otherFails).map DataOutcome.calls) ∧
      (∀ out,
        sessionDataRun domains storeId fromAddr recipients content fails =
          some out →
        out.returnErr = none ∧ out.calls.length = recipients.length + 1 ∧
          out.logged = out.calls.filter fails) := by
  intro domains storeId fromAddr recipients content fails otherFails
  constructor
  · cases recipients with
    | nil => rfl
    | cons r0 rs =>
      simp only [sessionDataRun, Option.map_some]
      rw [fanOutLoop_calls_independent storeId fromAddr content fails
        otherFails (r0 :: rs)]
      rfl
  · intro out hrun
    cases recipients with
    | nil => simp [sessionDataRun] at hrun
    | cons r0 rs =>
      simp only [sessionDataRun, Option.some.injEq] at hrun
      subst hrun
      refine ⟨rfl, ?_, ?_⟩
      · simp [fanOutLoop_length storeId fromAddr content fails (r0 :: rs)]
      · simp only [List.filter_cons,
          fanOutLoop_logged storeId fromAddr content fails (r0 :: rs)]
        by_cases h : fails
            { storeId := storeId, direction := Outgoing
            , domain := (parseEmailAddress fromAddr).1
            , user := (parseEmailAddress fromAddr).2
            , subject := "to-" ++ r0, content := content } <;> simp [h]

/-- Witness for C3: a delivery where every store call fails issues the same
calls as one where none does, and still returns nil with both calls logged. -/
theorem c3_witness :
    ((sessionDataRun [] 0 "a@y.com" ["b@x.com"] [104] (fun _ => true)).map
        DataOutcome.calls =
      (sessionDataRun [] 0 "a@y.com" ["b@x.com"] [104] (fun _ => false)).map
        DataOutcome.calls) ∧
    DataOutcome.returnErr
        { calls :=
            [{ storeId := 0, direction := Outgoing, domain := "y.com"
             , user := "a", subject := "to-b@x.com", content := [104] },
             { storeId := 0, direction := Incoming, domain := "x.com"
             , user := "b", subject := "from-a@y.com", content := [104] }]
        , logged :=
            [{ storeId := 0, direction := Outgoing, domain := "y.com"
             , user := "a", subject := "to-b@x.com", content := [104] },
             { storeId := 0, direction := Incoming, domain := "x.com"
             , user := "b", subject := "from-a@y.com", content := [104] }]
        , returnErr := none } = none :=
  ⟨(c3_storage_failure_does_not_abort [] 0 "a@y.com" ["b@x.com"] [104]
      (fun _ => true) (fun _ => false)).1,
    ((c3_storage_failure_does_not_abort [] 0 "a@y.com" ["b@x.com"] [104]
      (fun _ => true) (fun _ => false)).2 _ rfl).1⟩

/-- C9: on a non-empty recipient list the access to the first recipient is in
bounds — Session.Data completes, its first call's subject is built from that
first recipient, and the fan-out issues one call per participant. -/
theorem c9_deliver_total_on_nonempty_recipients :
    ∀ (domains : List (String × Nat)) (storeId : Nat) (fromAddr : String)
      (recipients : List String) (content : List Nat)
      (fails : StoreCall → Bool),
      recipients ≠ [] →
      ∃ out,
        sessionDataRun domains storeId fromAddr recipients content fails =
          some out ∧
        out.calls.length = recipients.length + 1 ∧
        out.calls.head?.map (fun c => c.subject) =
          some ("to-" ++ recipients.headI) := by
  intro domains storeId fromAddr recipients content fails hne
  cases recipients with
  | nil => exact absurd rfl hne
  | cons r0 rs =>
    refine ⟨_, rfl, ?_, rfl⟩
    simp [fanOutLoop_length storeId fromAddr content fails (r0 :: rs)]

/-- Witness for C9 on a concrete single-recipient delivery. -/
theorem c9_witness :
    (["b@x.com"] : List String) ≠ [] ∧
    ∃ out,
      sessionDataRun [] 0 "a@y.com" ["b@x.com"] [104] (fun _ => false) =
        some out ∧
      out.calls.length = (["b@x.com"] : List String).length + 1 ∧
      out.calls.head?.map (fun c => c.subject) =
        some ("to-" ++ (["b@x.com"] : List String).headI) :=
  ⟨by decide,
    c9_deliver_total_on_nonempty_recipients [] 0 "a@y.com" ["b@x.com"] [104]
      (fun _ => false) (by decide)⟩

/-- The sanitizer's character class, written as the proposition the spec
uses, agrees with the regexp class of the code. -/
theorem isSafeFilenameChar_iff (c : Char) :
    isSafeFilenameChar c = true ↔
      ('A' ≤ c ∧ c ≤ 'Z') ∨ ('a' ≤ c ∧ c ≤ 'z') ∨ ('0' ≤ c ∧ c ≤ '9') ∨
        c = '-' ∨ c = '.' := by
  simp only [isSafeFilenameChar, Bool.or_eq_true, Bool.and_eq_true,
    decide_eq_true_eq]
  tauto

/-- The sanitizer maps each character outside the spec's class to an
underscore and keeps the rest. -/
theorem replaceUnsafeChars_eq_spec (s : String) :
    replaceUnsafeChars s =
      String.mk (s.data.map (fun c =>
        if ('A' ≤ c ∧ c ≤ 'Z') ∨ ('a' ≤ c ∧ c ≤ 'z') ∨ ('0' ≤ c ∧ c ≤ '9') ∨
            c = '-' ∨ c = '.' then c else '_')) := by
  unfold replaceUnsafeChars
  congr 1
  apply List.map_congr_left
  intro c _
  by_cases h : ('A' ≤ c ∧ c ≤ 'Z') ∨ ('a' ≤ c ∧ c ≤ 'z') ∨
      ('0' ≤ c ∧ c ≤ '9') ∨ c = '-' ∨ c = '.'
  · rw [if_pos ((isSafeFilenameChar_iff c).mpr h), if_pos h]
  · rw [if_neg (fun hb => h ((isSafeFilenameChar_iff c).mp hb)), if_neg h]

/-- C7: the stored filename is timestamp, discriminator, direction marker and
sanitized label joined by dashes with extension .eml, where the timestamp has
fourteen decimal digits, the discriminator eight lower-case hex digits, the
marker is IN or OUT, and the label has every character outside the class
A-Z a-z 0-9 dash dot replaced by an underscore. -/
theorem c7_filename_format :
    ∀ (d : Int) (subject : String) (now : GoTime) (randomBytes : List Nat),
      now.InRange → randomBytes.length = 4 → (∀ b ∈ randomBytes, b < 256) →
      (d = Incoming ∨ d = Outgoing) →
      ∃ ts uid : String,
        storeEmailFilename d subject now randomBytes =
          ts ++ "-" ++ uid ++ "-" ++
            (if d = Incoming then "IN" else "OUT") ++ "-" ++
            String.mk (subject.data.map (fun c =>
              if ('A' ≤ c ∧ c ≤ 'Z') ∨ ('a' ≤ c ∧ c ≤ 'z') ∨
                  ('0' ≤ c ∧ c ≤ '9') ∨ c = '-' ∨ c = '.' then c
              else '_')) ++ ".eml" ∧
        ts.length = 14 ∧ (∀ c ∈ ts.data, c.isDigit = true) ∧
        uid.length = 8 ∧
        (∀ c ∈ uid.data, c.isDigit = true ∨ ('a' ≤ c ∧ c ≤ 'f')) := by
  intro d subject now randomBytes hrange hlen hbytes hd
  refine ⟨formatTimestamp now, generateUniqueID randomBytes, ?_,
    formatTimestamp_data_length now, formatTimestamp_digits now, ?_,
    generateUniqueID_chars randomBytes hbytes⟩
  · unfold storeEmailFilename
    rw [replaceUnsafeChars_eq_spec]
    rcases hd with h | h <;> subst h <;> rfl
  · show (generateUniqueID randomBytes).data.length = 8
    rw [generateUniqueID_data_length randomBytes, hlen]

/-- Witness for C7 on a concrete incoming message. -/
theorem c7_witness :
    ∃ ts uid : String,
      storeEmailFilename Incoming "a" ⟨2023, 6, 15, 12, 34, 56⟩ [1, 2, 3, 4] =
        ts ++ "-" ++ uid ++ "-" ++
          (if Incoming = Incoming then "IN" else "OUT") ++ "-" ++
          String.mk (("a" : String).data.map (fun c =>
            if ('A' ≤ c ∧ c ≤ 'Z') ∨ ('a' ≤ c ∧ c ≤ 'z') ∨
                ('0' ≤ c ∧ c ≤ '9') ∨ c = '-' ∨ c = '.' then c
            else '_')) ++ ".eml" ∧
      ts.length = 14 ∧ (∀ c ∈ ts.data, c.isDigit = true) ∧
      uid.length = 8 ∧
      (∀ c ∈ uid.data, c.isDigit = true ∨ ('a' ≤ c ∧ c ≤ 'f')) :=
  c7_filename_format Incoming "a" ⟨2023, 6, 15, 12, 34, 56⟩ [1, 2, 3, 4]
    (by decide) (by decide) (by decide) (Or.inl rfl)

/-- C4, counterexample: the claim that any list of concurrent StoreEmail
calls yields pairwise distinct filenames fails on the execution in which two
calls fall in the same second and rand.Read returns the same four bytes —
nothing in the code excludes that draw, so uniqueness is not guaranteed. -/
theorem c4_counterexample_equal_draws_collide :
    (([(⟨2023, 6, 15, 12, 34, 56⟩, [171, 205, 18, 52]),
        (⟨2023, 6, 15, 12, 34, 56⟩, [171, 205, 18, 52])] :
          List (GoTime × List Nat)).map (fun p =>
        storeEmailFilename Incoming "test-subject" p.1 p.2)) =
      ["20230615123456-abcd1234-IN-test-subject.eml",
        "20230615123456-abcd1234-IN-test-subject.eml"] ∧
    List.Pairwise (fun a b : String => a ≠ b)
        ["20230615123456-abcd1234-IN-test-subject.eml",
          "20230615123456-abcd1234-IN-test-subject.eml"] = False := by
  refine ⟨rfl, ?_⟩
  simp [List.pairwise_cons]

/-- C4, amended: filenames of two StoreEmail calls with the same direction
and label coincide exactly when both the rendered second-granularity
timestamp and the 8-hex discriminator coincide; distinctness therefore holds
whenever the (timestamp, discriminator) draws differ, and is only
probabilistic, not absolute. -/
theorem c4_amended_distinct_filenames_need_distinct_draws :
    ∀ (d : Int) (subject : String) (t1 t2 : GoTime) (r1 r2 : List Nat),
      t1.InRange → t2.InRange → r1.length = 4 → r2.length = 4 →
      storeEmailFilename d subject t1 r1 = storeEmailFilename d subject t2 r2 →
      formatTimestamp t1 = formatTimestamp t2 ∧
        generateUniqueID r1 = generateUniqueID r2 := by
  intro d subject t1 t2 r1 r2 h1 h2 hl1 hl2 heq
  have hdata := congrArg String.data heq
  simp only [storeEmailFilename, string_data_append, dash_data,
    List.append_assoc, List.singleton_append] at hdata
  have hlents : (formatTimestamp t1).data.length =
      (formatTimestamp t2).data.length := by
    rw [formatTimestamp_data_length, formatTimestamp_data_length]
  obtain ⟨hts, hrest⟩ := List.append_inj hdata hlents
  injection hrest with _ hrest2
  have hlenuid : (generateUniqueID r1).data.length =
      (generateUniqueID r2).data.length := by
    rw [generateUniqueID_data_length, generateUniqueID_data_length, hl1, hl2]
  obtain ⟨huid, -⟩ := List.append_inj hrest2 hlenuid
  exact ⟨String.ext hts, String.ext huid⟩

/-- Witness for the amended C4: two draws in the same second with distinct
random bytes, shown to force both components equal whenever the filenames
are; here the filenames of the two concrete draws indeed differ. -/
theorem c4_amended_witness :
    GoTime.InRange ⟨2023, 6, 15, 12, 34, 56⟩ ∧
    (formatTimestamp ⟨2023, 6, 15, 12, 34, 56⟩ =
        formatTimestamp ⟨2023, 6, 15, 12, 34, 56⟩ ∧
      generateUniqueID [1, 2, 3, 4] = generateUniqueID [1, 2, 3, 4]) :=
  ⟨by decide,
    c4_amended_distinct_filenames_need_distinct_draws Incoming "s"
      ⟨2023, 6, 15, 12, 34, 56⟩ ⟨2023, 6, 15, 12, 34, 56⟩ [1, 2, 3, 4]
      [1, 2, 3, 4] (by decide) (by decide) (by decide) (by decide) rfl⟩

/-- Looking a registered name up in the collected per-domain TLS configs
finds the config built from that domain's registration, provided domain names
are unique (Go map keys are) and the domain has certificate material. -/
theorem lookup_collectTLSConfigs :
    ∀ (registry : List (String × DomainConfig)) (name : String)
      (dcfg : DomainConfig),
      (registry.map Prod.fst).Nodup → (name, dcfg) ∈ registry →
      dcfg.hasTLS = true →
      (collectTLSConfigs registry).lookup name =
        some { certificates := dcfg.tlsCertificates
             , serverName := dcfg.domain } := by
  intro registry
  induction registry with
  | nil => intro name dcfg _ hmem _; simp at hmem
  | cons p rest ih =>
    intro name dcfg hnodup hmem htls
    obtain ⟨k, c⟩ := p
    rw [List.map_cons, List.nodup_cons] at hnodup
    obtain ⟨hk, hrest⟩ := hnodup
    rcases List.mem_cons.mp hmem with heq | hmemr
    · injection heq with h1 h2
      subst h1; subst h2
      simp only [collectTLSConfigs, List.filter_cons, htls, if_true,
        List.map_cons, List.lookup, beq_self_eq_true]
    · have hnamer : name ∈ rest.map Prod.fst :=
        List.mem_map.mpr ⟨(name, dcfg), hmemr, rfl⟩
      have hne : (name == k) = false := by
        refine beq_eq_false_iff_ne.mpr fun he => hk ?_
        subst he; exact hnamer
      have ihr := ih name dcfg hrest hmemr htls
      by_cases hc : c.hasTLS = true
      · simp only [collectTLSConfigs, List.filter_cons, hc, if_true,
          List.map_cons, List.lookup, hne] at ihr ⊢
        exact ihr
      · rw [Bool.not_eq_true] at hc
        simp only [collectTLSConfigs, List.filter_cons, hc,
          Bool.false_eq_true, if_false] at ihr ⊢
        exact ihr

/-- C5, counterexample: with exactly one domain registered with a
certificate, the callback invoked for an unregistered requested name returns
the zero-value config whose certificate list is empty — not the configured
domain's certificate — so the claim that a usable configured fallback
certificate is returned is false on the code. -/
theorem c5_counterexample_fallback_has_no_certificate :
    getConfigForClient
        (collectTLSConfigs
          [("x.com", { domain := "x.com", tlsCertificates := [7]
                     , hasTLS := true, storageDir := "d" })])
        "unregistered.tld" = { certificates := [], serverName := "" } ∧
    getConfigForClient
        (collectTLSConfigs
          [("x.com", { domain := "x.com", tlsCertificates := [7]
                     , hasTLS := true, storageDir := "d" })])
        "x.com" = { certificates := [7], serverName := "x.com" } :=
  ⟨rfl, rfl⟩

/-- C5, amended: on an exact match with a registered domain that has
certificate material the callback returns that domain's config with its
certificate; on any other requested name it returns a fresh config whose
certificate list is empty — it never fails with an error, but it supplies no
fallback certificate. -/
theorem c5_amended_fallback_is_empty_config :
    ∀ (registry : List (String × DomainConfig)) (name : String),
      ((registry.map Prod.fst).Nodup →
        ∀ dcfg : DomainConfig, (name, dcfg) ∈ registry → dcfg.hasTLS = true →
          getConfigForClient (collectTLSConfigs registry) name =
            { certificates := dcfg.tlsCertificates
            , serverName := dcfg.domain }) ∧
      ((collectTLSConfigs registry).lookup name = none →
        getConfigForClient (collectTLSConfigs registry) name =
          { certificates := [], serverName := "" }) := by
  intro registry name
  constructor
  · intro hnodup dcfg hmem htls
    unfold getConfigForClient
    rw [lookup_collectTLSConfigs registry name dcfg hnodup hmem htls]
  · intro hnone
    unfold getConfigForClient
    rw [hnone]

/-- Witness for the amended C5 on a one-domain registry. -/
theorem c5_amended_witness :
    getConfigForClient
        (collectTLSConfigs
          [("x.com", { domain := "x.com", tlsCertificates := [7]
                     , hasTLS := true, storageDir := "d" })])
        "x.com" = { certificates := [7], serverName := "x.com" } ∧
    getConfigForClient
        (collectTLSConfigs
          [("x.com", { domain := "x.com", tlsCertificates := [7]
                     , hasTLS := true, storageDir := "d" })])
        "nobody.example" = { certificates := [], serverName := "" } :=
  ⟨(c5_amended_fallback_is_empty_config
      [("x.com", { domain := "x.com", tlsCertificates := [7], hasTLS := true
                 , storageDir := "d" })] "x.com").1 (by decide) _
      (List.mem_singleton.mpr rfl) rfl,
    (c5_amended_fallback_is_empty_config
      [("x.com", { domain := "x.com", tlsCertificates := [7], hasTLS := true
                 , storageDir := "d" })] "nobody.example").2 rfl⟩

/-- C6: AddDomain rejects an empty domain name and one-sided certificate
material with a configuration error; with a non-empty name, material supplied
both-or-neither, a creatable storage directory and a loadable pair where one
is supplied, it succeeds and stores the configuration it built. -/
theorem c6_add_domain_validation :
    ∀ (domain certFile keyFile storageDir : String) (storageOk : Bool)
      (certLoad : Option Nat),
      (domain = "" →
        ∃ e, addDomain domain certFile keyFile storageDir storageOk certLoad =
          Except.error e) ∧
      ((certFile ≠ "" ∧ keyFile = "") ∨ (certFile = "" ∧ keyFile ≠ "") →
        ∃ e, addDomain domain certFile keyFile storageDir storageOk certLoad =
          Except.error e) ∧
      (domain ≠ "" → storageOk = true → certFile ≠ "" → keyFile ≠ "" →
        ∀ cert, certLoad = some cert →
          addDomain domain certFile keyFile storageDir storageOk certLoad =
            Except.ok { domain := domain, tlsCertificates := [cert]
                      , hasTLS := true, storageDir := storageDir }) ∧
      (domain ≠ "" → storageOk = true → certFile = "" → keyFile = "" →
        addDomain domain certFile keyFile storageDir storageOk certLoad =
          Except.ok { domain := domain, tlsCertificates := []
                    , hasTLS := false, storageDir := storageDir }) := by
  intro domain certFile keyFile storageDir storageOk certLoad
  refine ⟨?_, ?_, ?_, ?_⟩
  · intro h
    exact ⟨_, by rw [addDomain.eq_def, if_pos h]⟩
  · intro h
    by_cases hdom : domain = ""
    · exact ⟨_, by rw [addDomain.eq_def, if_pos hdom]⟩
    · exact ⟨_, by rw [addDomain.eq_def, if_neg hdom, if_pos h]⟩
  · intro hdom hsto hcert hkey cert hload
    have hno : ¬ ((certFile ≠ "" ∧ keyFile = "") ∨
        (certFile = "" ∧ keyFile ≠ "")) := by
      rintro (⟨-, h2⟩ | ⟨h1, -⟩)
      · exact hkey h2
      · exact hcert h1
    rw [addDomain.eq_def, if_neg hdom, if_neg hno,
      if_neg (by rw [hsto]; simp),
      if_pos ⟨hcert, hkey⟩, hload]
  · intro hdom hsto hcert hkey
    have hno : ¬ ((certFile ≠ "" ∧ keyFile = "") ∨
        (certFile = "" ∧ keyFile ≠ "")) := by
      rintro (⟨h1, -⟩ | ⟨-, h2⟩)
      · exact h1 hcert
      · exact h2 hkey
    rw [addDomain.eq_def, if_neg hdom, if_neg hno,
      if_neg (by rw [hsto]; simp),
      if_neg (fun h => h.1 hcert)]

/-- Witness for C6 on the spec's examples: each one-sided supply fails, the
full pair succeeds, no material succeeds, and the empty name fails. -/
theorem c6_witness :
    (∃ e, addDomain "x.com" "cert.pem" "" "dir" true (some 7) =
      Except.error e) ∧
    (∃ e, addDomain "x.com" "" "key.pem" "dir" true (some 7) =
      Except.error e) ∧
    addDomain "x.com" "cert.pem" "key.pem" "dir" true (some 7) =
      Except.ok { domain := "x.com", tlsCertificates := [7], hasTLS := true
                , storageDir := "dir" } ∧
    addDomain "x.com" "" "" "dir" true none =
      Except.ok { domain := "x.com", tlsCertificates := [], hasTLS := false
                , storageDir := "dir" } ∧
    (∃ e, addDomain "" "cert.pem" "key.pem" "dir" true (some 7) =
      Except.error e) :=
  ⟨(c6_add_domain_validation "x.com" "cert.pem" "" "dir" true (some 7)).2.1
      (Or.inl ⟨by decide, rfl⟩),
    (c6_add_domain_validation "x.com" "" "key.pem" "dir" true (some 7)).2.1
      (Or.inr ⟨rfl, by decide⟩),
    (c6_add_domain_validation "x.com" "cert.pem" "key.pem" "dir" true
      (some 7)).2.2.1 (by decide) rfl (by decide) (by decide) 7 rfl,
    (c6_add_domain_validation "x.com" "" "" "dir" true none).2.2.2
      (by decide) rfl rfl rfl,
    (c6_add_domain_validation "" "cert.pem" "key.pem" "dir" true (some 7)).1
      rfl⟩

end GargantuaSink
